import Mathlib

/-!
Shallow embedding of the Sakila FastAPI service (src/main.py, src/schemas.py).

Conventions of the embedding:
* HTTP failures (FastAPI HTTPException) are a status code plus a detail string;
  a handler returning `Except HTTPException β` either fails with such an error
  or succeeds with a response body.
* A database table is a list of rows, in the order the database would return
  them (the source issues no ORDER BY, so this order is arbitrary).
* A per-request connection carries a committed state and a pending state;
  executed statements act on the pending state and only `commit` makes them
  durable; closing a connection without commit discards the pending work,
  mirroring the absence of any rollback path in the source.
* The credential and token subsystem (auth.py) is imported by main.py but the
  file itself is not part of the repository sources, so it is modelled
  abstractly from the specification.
-/

namespace Sakila

/-- FastAPI HTTPException: an HTTP status code and a detail message. -/
structure HTTPException where
  status : Nat
  detail : String
deriving DecidableEq, Repr

/-- Modelled from the spec: the credential and token subsystem of auth.py
(class AuthHandler together with hash_password) is imported by src/main.py but
absent from the repository sources.  Per spec section 4.1: decode_token
verifies signature and expiry and yields the username, or fails with an
Unauthorized error; encode_token mints a signed token embedding the username;
authenticate checks a username/password pair against one fixed accepted pair;
hash_password produces a one-way hash of a plaintext password. -/
structure AuthHandler where
  decode_token : String → Except HTTPException String
  encode_token : String → String
  authenticate : String → String → Bool
  hash_password : String → String

/-- Modelled from the spec: section 4.1 requires a decode failure (expired or
invalid signature) to surface as Unauthorized, translated to HTTP 401. -/
def DecodeUnauthorized (auth : AuthHandler) : Prop :=
  ∀ t e, auth.decode_token t = Except.error e → e.status = 401

/-- src/main.py line 19: the in-memory token blacklist is a Python set of
strings; modelled as a list with set-style insertion (List.insert adds the
element only when it is not already a member). -/
abbrev RevokedSet := List String

/-- src/main.py lines 92-96 (jwt_required): the dependency guarding every
protected route; a revoked token is rejected with 401 before any decoding,
otherwise the result is exactly that of decode_token. -/
def jwt_required (auth : AuthHandler) (revoked : RevokedSet) (token : String) :
    Except HTTPException String :=
  if token ∈ revoked then Except.error ⟨401, "Token has been revoked"⟩
  else auth.decode_token token

/-- src/main.py lines 69-74 (login): authenticate, then encode a fresh token. -/
def login (auth : AuthHandler) (username password : String) :
    Except HTTPException String :=
  if auth.authenticate username password then
    Except.ok (auth.encode_token username)
  else Except.error ⟨401, "Invalid credentials"⟩

/-- src/main.py lines 76-83 (refresh_token): reject revoked tokens, decode the
old token to recover the username, and encode a new token for that username. -/
def refresh_token (auth : AuthHandler) (revoked : RevokedSet)
    (old_token : String) : Except HTTPException String :=
  if old_token ∈ revoked then Except.error ⟨401, "Token has been revoked"⟩
  else
    match auth.decode_token old_token with
    | Except.error e => Except.error e
    | Except.ok username => Except.ok (auth.encode_token username)

/-- src/main.py lines 85-89 (revoke_token): add the presented token string to
the revocation set and return the confirmation message; the token is not
decoded or otherwise validated. -/
def revoke_token (revoked : RevokedSet) (token : String) :
    String × RevokedSet :=
  ("Token has been revoked", revoked.insert token)

/-- A row of the film table (columns used by src/main.py). -/
structure FilmRow where
  film_id : Int
  title : String
  description : Option String
  release_year : Int
  language_id : Int
deriving DecidableEq, Repr

/-- src/main.py lines 34-38: the Film response model. -/
structure Film where
  film_id : Int
  title : String
  description : Option String
  release_year : Int
deriving DecidableEq, Repr

/-- src/main.py lines 40-46: the NewCustomer response model, used for the
active-customers-by-store listing. -/
structure NewCustomer where
  store_id : Int
  first_name : String
  last_name : String
  email : String
  address_id : Int
  active : Int
deriving DecidableEq, Repr

/-- src/main.py lines 48-51: the UpdateAddress request model. -/
structure UpdateAddress where
  address_id : Int
  address : String
  district : String
deriving DecidableEq, Repr

/-- src/main.py lines 53-60: the CustomerCreate request model of the primary
service (plain typed fields, no length or format constraints). -/
structure CustomerCreate where
  store_id : Int
  first_name : String
  last_name : String
  email : String
  address_id : Int
  active : Int
  password : String
deriving DecidableEq, Repr

/-- src/main.py lines 62-66: the CustomerOut response model. -/
structure CustomerOut where
  customer_id : Int
  first_name : String
  last_name : String
  email : String
deriving DecidableEq, Repr

/-- A row of the customer table (columns used by src/main.py). -/
structure CustomerRow where
  customer_id : Int
  store_id : Int
  first_name : String
  last_name : String
  email : String
  address_id : Int
  active : Int
  password : String
  create_date : Nat
deriving DecidableEq, Repr

/-- A row of the address table (columns used by src/main.py). -/
structure AddressRow where
  address_id : Int
  address : String
  district : String
deriving DecidableEq, Repr

/-- A per-request database connection over a table state: committed is what
survives connection teardown, pending accumulates executed but uncommitted
statements (spec section 5: a single statement then an explicit commit, no
rollback path; closing an uncommitted connection discards pending work). -/
structure Conn (α : Type) where
  committed : α
  pending : α

/-- Opening a fresh connection: pending state starts at the committed state. -/
def Conn.openDb {α : Type} (table : α) : Conn α := ⟨table, table⟩

/-- cursor.execute of one statement: the statement maps the pending table to an
affected-row count and an updated table. -/
def Conn.execute {α : Type} (c : Conn α) (stmt : α → Nat × α) : Nat × Conn α :=
  ((stmt c.pending).1, ⟨c.committed, (stmt c.pending).2⟩)

/-- db.commit: pending work becomes durable. -/
def Conn.commit {α : Type} (c : Conn α) : Conn α := ⟨c.pending, c.pending⟩

/-- Connection teardown: only committed work survives. -/
def Conn.close {α : Type} (c : Conn α) : α := c.committed

/-- src/main.py line 240: UPDATE film SET title WHERE film_id; yields the
affected-row count and the updated table. -/
def sqlUpdateFilmTitle (film_id : Int) (title : String)
    (films : List FilmRow) : Nat × List FilmRow :=
  ((films.filter (fun r => r.film_id == film_id)).length,
   films.map (fun r =>
     if r.film_id == film_id then
       ⟨r.film_id, title, r.description, r.release_year, r.language_id⟩
     else r))

/-- src/main.py line 218: UPDATE address SET address, district WHERE
address_id. -/
def sqlUpdateAddress (d : UpdateAddress) (addresses : List AddressRow) :
    Nat × List AddressRow :=
  ((addresses.filter (fun r => r.address_id == d.address_id)).length,
   addresses.map (fun r =>
     if r.address_id == d.address_id then
       ⟨r.address_id, d.address, d.district⟩
     else r))

/-- src/main.py line 260: DELETE FROM customer WHERE customer_id. -/
def sqlDeleteCustomer (customer_id : Int) (customers : List CustomerRow) :
    Nat × List CustomerRow :=
  ((customers.filter (fun r => r.customer_id == customer_id)).length,
   customers.filter (fun r => !(r.customer_id == customer_id)))

/-- src/main.py line 278: DELETE FROM film WHERE film_id. -/
def sqlDeleteFilm (film_id : Int) (films : List FilmRow) :
    Nat × List FilmRow :=
  ((films.filter (fun r => r.film_id == film_id)).length,
   films.filter (fun r => !(r.film_id == film_id)))

/-- src/main.py lines 230-249 (update_film_title): execute the update, treat a
zero affected-row count as 404 Film not found (no commit, so the table is left
as it was), otherwise commit and return the success message. -/
def update_film_title (films : List FilmRow) (film_id : Int) (title : String) :
    Except HTTPException String × List FilmRow :=
  let db := Conn.openDb films
  let r := db.execute (sqlUpdateFilmTitle film_id title)
  if r.1 = 0 then (Except.error ⟨404, "Film not found"⟩, r.2.close)
  else (Except.ok "Film title updated", r.2.commit.close)

/-- src/main.py lines 209-228 (update_customer_address): same affected-row
pattern with 404 Address not found. -/
def update_customer_address (addresses : List AddressRow) (d : UpdateAddress) :
    Except HTTPException String × List AddressRow :=
  let db := Conn.openDb addresses
  let r := db.execute (sqlUpdateAddress d)
  if r.1 = 0 then (Except.error ⟨404, "Address not found"⟩, r.2.close)
  else (Except.ok "Address updated", r.2.commit.close)

/-- src/main.py lines 252-268 (delete_customer): same affected-row pattern with
404 Customer not found. -/
def delete_customer (customers : List CustomerRow) (customer_id : Int) :
    Except HTTPException String × List CustomerRow :=
  let db := Conn.openDb customers
  let r := db.execute (sqlDeleteCustomer customer_id)
  if r.1 = 0 then (Except.error ⟨404, "Customer not found"⟩, r.2.close)
  else (Except.ok "Customer deleted", r.2.commit.close)

/-- src/main.py lines 270-286 (delete_film): same affected-row pattern with
404 Film not found. -/
def delete_film (films : List FilmRow) (film_id : Int) :
    Except HTTPException String × List FilmRow :=
  let db := Conn.openDb films
  let r := db.execute (sqlDeleteFilm film_id)
  if r.1 = 0 then (Except.error ⟨404, "Film not found"⟩, r.2.close)
  else (Except.ok "Film deleted", r.2.commit.close)

/-- The database assigns the id for an inserted customer row. -/
def nextCustomerId (customers : List CustomerRow) : Int :=
  (customers.map (fun r => r.customer_id)).foldl max 0 + 1

/-- The database assigns the id for an inserted film row. -/
def nextFilmId (films : List FilmRow) : Int :=
  (films.map (fun r => r.film_id)).foldl max 0 + 1

/-- src/main.py lines 157-181 (create_customer): hash the password, insert one
row with a database-assigned id and the current time as create_date, commit,
return the success message. -/
def create_customer (auth : AuthHandler) (customers : List CustomerRow)
    (c : CustomerCreate) (now : Nat) :
    Except HTTPException String × List CustomerRow :=
  let hashed_pw := auth.hash_password c.password
  let db := Conn.openDb customers
  let row : CustomerRow :=
    ⟨nextCustomerId customers, c.store_id, c.first_name, c.last_name,
     c.email, c.address_id, c.active, hashed_pw, now⟩
  let r := db.execute (fun t => (1, t ++ [row]))
  (Except.ok "Customer created successfully", r.2.commit.close)

/-- src/main.py lines 183-206 (add_new_film): insert one film row with a
database-assigned id, commit, return the success message. -/
def add_new_film (films : List FilmRow) (title description : String)
    (release_year language_id : Int) :
    Except HTTPException String × List FilmRow :=
  let db := Conn.openDb films
  let row : FilmRow :=
    ⟨nextFilmId films, title, some description, release_year, language_id⟩
  let r := db.execute (fun t => (1, t ++ [row]))
  (Except.ok "Film added successfully", r.2.commit.close)

/-- The four-column film projection shared by the film read endpoints. -/
def filmProj (r : FilmRow) : Film :=
  ⟨r.film_id, r.title, r.description, r.release_year⟩

/-- src/main.py lines 99-108 (get_all_films): SELECT film_id, title,
description, release_year FROM film LIMIT 10. -/
def get_all_films (films : List FilmRow) : List Film :=
  (films.take 10).map filmProj

/-- src/main.py lines 114-121: the join of film to film_category restricted to
one category id, projected to the four film columns, in table order. -/
def sqlFilmsByCategory (films : List FilmRow) (film_category : List (Int × Int))
    (category_id : Int) : List Film :=
  films.flatMap (fun f =>
    (film_category.filter
        (fun p => p.1 == f.film_id && p.2 == category_id)).map
      (fun _ => filmProj f))

/-- src/main.py lines 110-126 (get_films_by_category): 404 when the join
returns no rows, otherwise all joined rows. -/
def get_films_by_category (films : List FilmRow)
    (film_category : List (Int × Int)) (category_id : Int) :
    Except HTTPException (List Film) :=
  let rows := sqlFilmsByCategory films film_category category_id
  if rows.isEmpty then
    Except.error ⟨404, "No films found in this category"⟩
  else Except.ok rows

/-- src/main.py lines 128-140 (get_active_customers): customers of one store
with active = 1; 404 when none. -/
def get_active_customers (customers : List CustomerRow) (store_id : Int) :
    Except HTTPException (List NewCustomer) :=
  let results := (customers.filter
      (fun r => r.store_id == store_id && r.active == 1)).map
    (fun r => NewCustomer.mk r.store_id r.first_name r.last_name r.email
      r.address_id r.active)
  if results.isEmpty then
    Except.error ⟨404, "No active customers found for this store"⟩
  else Except.ok results

/-- src/main.py lines 142-154 (get_customer): fetchone on customer_id; 404
when absent. -/
def get_customer (customers : List CustomerRow) (customer_id : Int) :
    Except HTTPException CustomerOut :=
  match (customers.filter (fun r => r.customer_id == customer_id)).head? with
  | none => Except.error ⟨404, "Customer not found"⟩
  | some r => Except.ok ⟨r.customer_id, r.first_name, r.last_name, r.email⟩

/-- The whole observable state of the service process: the process-wide
revocation set plus the four database tables touched by src/main.py. -/
structure ServiceState where
  revoked : RevokedSet
  films : List FilmRow
  film_category : List (Int × Int)
  customers : List CustomerRow
  addresses : List AddressRow
deriving Repr

/-- One request to any route of the primary service (src/main.py); protected
routes carry the bearer token presented in the authorization header. -/
inductive Request
  | rootReq
  | loginReq (username password : String)
  | refreshReq (token : String)
  | revokeReq (token : String)
  | filmsReq
  | filmsByCategoryReq (category_id : Int)
  | activeCustomersReq (store_id : Int)
  | customerReq (customer_id : Int)
  | createCustomerReq (token : String) (c : CustomerCreate) (now : Nat)
  | addFilmReq (token : String) (title description : String)
      (release_year language_id : Int)
  | updateAddressReq (token : String) (d : UpdateAddress)
  | updateFilmTitleReq (token : String) (film_id : Int) (title : String)
  | deleteCustomerReq (token : String) (customer_id : Int)
  | deleteFilmReq (token : String) (film_id : Int)
deriving DecidableEq, Repr

/-- A successful response body of the primary service. -/
inductive Body
  | msg (s : String)
  | token (s : String)
  | films (l : List Film)
  | customers (l : List NewCustomer)
  | customer (c : CustomerOut)
deriving DecidableEq, Repr

/-- The protected-route pattern of src/main.py: the handler body runs only
when jwt_required succeeds, and receives the decoded username it returned
(username is declared via Depends on jwt_required). -/
def runProtected (auth : AuthHandler) (s : ServiceState) (token : String)
    (handler : String → Except HTTPException Body × ServiceState) :
    Except HTTPException Body × ServiceState :=
  match jwt_required auth s.revoked token with
  | Except.error e => (Except.error e, s)
  | Except.ok username => handler username

/-- Dispatch of one request to the route handlers of src/main.py, returning
the response and the service state afterwards. -/
def handle (auth : AuthHandler) (s : ServiceState) :
    Request → Except HTTPException Body × ServiceState
  | Request.rootReq =>
      (Except.ok (Body.msg "Welcome to the Sakila FastAPI Service!"), s)
  | Request.loginReq u p => ((login auth u p).map Body.token, s)
  | Request.refreshReq t => ((refresh_token auth s.revoked t).map Body.token, s)
  | Request.revokeReq t =>
      (Except.ok (Body.msg (revoke_token s.revoked t).1),
       ⟨(revoke_token s.revoked t).2, s.films, s.film_category,
        s.customers, s.addresses⟩)
  | Request.filmsReq => (Except.ok (Body.films (get_all_films s.films)), s)
  | Request.filmsByCategoryReq cid =>
      ((get_films_by_category s.films s.film_category cid).map Body.films, s)
  | Request.activeCustomersReq sid =>
      ((get_active_customers s.customers sid).map Body.customers, s)
  | Request.customerReq cid =>
      ((get_customer s.customers cid).map Body.customer, s)
  | Request.createCustomerReq t c now => runProtected auth s t (fun _ =>
      ((create_customer auth s.customers c now).1.map Body.msg,
       ⟨s.revoked, s.films, s.film_category,
        (create_customer auth s.customers c now).2, s.addresses⟩))
  | Request.addFilmReq t title description ry lid => runProtected auth s t
      (fun _ =>
      ((add_new_film s.films title description ry lid).1.map Body.msg,
       ⟨s.revoked, (add_new_film s.films title description ry lid).2,
        s.film_category, s.customers, s.addresses⟩))
  | Request.updateAddressReq t d => runProtected auth s t (fun _ =>
      ((update_customer_address s.addresses d).1.map Body.msg,
       ⟨s.revoked, s.films, s.film_category, s.customers,
        (update_customer_address s.addresses d).2⟩))
  | Request.updateFilmTitleReq t fid title => runProtected auth s t (fun _ =>
      ((update_film_title s.films fid title).1.map Body.msg,
       ⟨s.revoked, (update_film_title s.films fid title).2, s.film_category,
        s.customers, s.addresses⟩))
  | Request.deleteCustomerReq t cid => runProtected auth s t (fun _ =>
      ((delete_customer s.customers cid).1.map Body.msg,
       ⟨s.revoked, s.films, s.film_category,
        (delete_customer s.customers cid).2, s.addresses⟩))
  | Request.deleteFilmReq t fid => runProtected auth s t (fun _ =>
      ((delete_film s.films fid).1.map Body.msg,
       ⟨s.revoked, (delete_film s.films fid).2, s.film_category,
        s.customers, s.addresses⟩))

/-- The service state after handling a sequence of requests in order. -/
def runRequests (auth : AuthHandler) (s : ServiceState)
    (reqs : List Request) : ServiceState :=
  reqs.foldl (fun st r => (handle auth st r).2) s

namespace Schemas

/-- src/schemas.py lines 8-10 (AuthDetails): username and password, both of
plain type str. -/
structure AuthDetails where
  username : String
  password : String
deriving DecidableEq, Repr

/-- Pydantic validation of an AuthDetails body: each field must be present
(a missing field is a validation error naming that field), and any string
value whatsoever — the empty string included — satisfies the plain str type. -/
def validateAuthDetails (username password : Option String) :
    Except (List String) AuthDetails :=
  match username, password with
  | some u, some p => Except.ok ⟨u, p⟩
  | none, some _ => Except.error ["username"]
  | some _, none => Except.error ["password"]
  | none, none => Except.error ["username", "password"]

/-- src/schemas.py lines 12-16 (CustomerCreate): the validated creation
schema; only these four fields are declared. -/
structure CustomerCreate where
  first_name : String
  last_name : String
  email : String
  password : String
deriving DecidableEq, Repr

/-- src/schemas.py lines 12-16: constr with min_length 1 and max_length 45 on
first_name and last_name, EmailStr on email, constr with min_length 8 on
password.  EmailStr delegates syntactic email validity to an external
validator, modelled here as the abstract predicate isEmail. -/
def validateCustomerCreate (isEmail : String → Bool)
    (c : CustomerCreate) : Bool :=
  (1 ≤ c.first_name.length && c.first_name.length ≤ 45)
  && (1 ≤ c.last_name.length && c.last_name.length ≤ 45)
  && isEmail c.email
  && 8 ≤ c.password.length

end Schemas

/-- Database resource events a handler can perform, in program order. -/
inductive DbEvent
  | openConn
  | openCursor
  | executeStmt
  | commitTx
  | closeCursor
  | closeConn
deriving DecidableEq, Repr

/-- src/main.py lines 99-108 (get_all_films), resource events: the connection
and cursor are opened and the statement runs; cursor.close() is a plain
statement after fetchall, reached only when execution does not raise, and
db.close() appears nowhere. -/
def get_all_films_events (execRaises : Bool) : List DbEvent :=
  if execRaises then [DbEvent.openConn, DbEvent.openCursor, DbEvent.executeStmt]
  else [DbEvent.openConn, DbEvent.openCursor, DbEvent.executeStmt,
        DbEvent.closeCursor]

/-- src/main.py lines 110-126 (get_films_by_category), resource events:
cursor.close() precedes the empty-result check, so both the 404 path and the
success path close the cursor, but an execution failure skips it; db.close()
appears nowhere. -/
def get_films_by_category_events (execRaises : Bool) : List DbEvent :=
  if execRaises then [DbEvent.openConn, DbEvent.openCursor, DbEvent.executeStmt]
  else [DbEvent.openConn, DbEvent.openCursor, DbEvent.executeStmt,
        DbEvent.closeCursor]

/-- src/main.py lines 157-181 (create_customer), resource events: the
try/finally block closes the cursor on the database-error path and on the
success path; db.close() appears nowhere. -/
def create_customer_events (execRaises : Bool) : List DbEvent :=
  if execRaises then
    [DbEvent.openConn, DbEvent.openCursor, DbEvent.executeStmt,
     DbEvent.closeCursor]
  else
    [DbEvent.openConn, DbEvent.openCursor, DbEvent.executeStmt,
     DbEvent.commitTx, DbEvent.closeCursor]

/-- src/main.py lines 230-249 (update_film_title), resource events: the
finally block closes the cursor on the database-error path, the zero-rowcount
404 path, and the success path; only the success path commits; db.close()
appears nowhere. -/
def update_film_title_events (execRaises rowcountZero : Bool) : List DbEvent :=
  [DbEvent.openConn, DbEvent.openCursor, DbEvent.executeStmt]
  ++ (if execRaises then [] else if rowcountZero then [] else [DbEvent.commitTx])
  ++ [DbEvent.closeCursor]

/-- src/main.py lines 252-268 (delete_customer), resource events: same
finally-block shape as update_film_title. -/
def delete_customer_events (execRaises rowcountZero : Bool) : List DbEvent :=
  [DbEvent.openConn, DbEvent.openCursor, DbEvent.executeStmt]
  ++ (if execRaises then [] else if rowcountZero then [] else [DbEvent.commitTx])
  ++ [DbEvent.closeCursor]

/-- A concrete instance of the modelled auth subsystem, for evaluating the
theorems: exactly one decodable token and one accepted credential pair. -/
def toyAuth : AuthHandler :=
  ⟨fun t => if t == "tok.alice" then Except.ok "alice"
            else Except.error ⟨401, "Invalid token"⟩,
   fun u => String.append "tok2." u,
   fun u p => u == "alice" && p == "wonderland",
   fun p => String.append "hashed." p⟩

/-- A concrete sample film row. -/
def filmA : FilmRow := ⟨1, "ACADEMY DINOSAUR", some "A doc", 2006, 1⟩

/-- A second concrete sample film row. -/
def filmB : FilmRow := ⟨2, "ACE GOLDFINGER", none, 2006, 1⟩

/-- A concrete sample customer row. -/
def custA : CustomerRow :=
  ⟨1, 1, "MARY", "SMITH", "mary@example.com", 5, 1, "pw", 0⟩

/-- A concrete sample address row. -/
def addrA : AddressRow := ⟨5, "47 MySakila Drive", "Alberta"⟩

/-- A concrete sample service state. -/
def sampleState : ServiceState :=
  ⟨[], [filmA, filmB], [(1, 6), (2, 11)], [custA], [addrA]⟩

/-- The concrete auth instance satisfies the modelled 401 contract of
decode_token. -/
theorem toyAuth_decode_unauthorized : DecodeUnauthorized toyAuth := by
  intro t e h
  by_cases ht : t = "tok.alice" <;> simp [toyAuth, ht] at h
  rw [← h]

/-- One handled request never removes an element from the revocation set. -/
theorem handle_revoked_mono (auth : AuthHandler) (s : ServiceState)
    (r : Request) (t : String) (h : t ∈ s.revoked) :
    t ∈ (handle auth s r).2.revoked := by
  cases r
  case revokeReq tk =>
    simpa [handle, revoke_token] using List.mem_insert_of_mem h
  all_goals
    simp only [handle, runProtected]
    first
      | exact h
      | (split <;> exact h)

/-- A request sequence never removes an element from the revocation set. -/
theorem runRequests_revoked_mono (auth : AuthHandler) (reqs : List Request)
    (s : ServiceState) (t : String) (h : t ∈ s.revoked) :
    t ∈ (runRequests auth s reqs).revoked := by
  induction reqs generalizing s with
  | nil => simpa [runRequests] using h
  | cons r rs ih =>
    simp only [runRequests, List.foldl_cons] at ih ⊢
    exact ih _ (handle_revoked_mono auth s r t h)

/-- C1: for every protected route, the authorization gate first checks the
presented bearer token against the revocation set and fails with 401 "Token
has been revoked" when the token is a member; only when the token is not in
the set is it decoded, and the decoded username is the value passed into the
handler; decode failure propagates as its own Unauthorized (401) failure. -/
theorem C1_authorization_gate (auth : AuthHandler) (s : ServiceState)
    (t : String) (hdec : DecodeUnauthorized auth) :
    (t ∈ s.revoked →
      jwt_required auth s.revoked t
          = Except.error ⟨401, "Token has been revoked"⟩
      ∧ ∀ handler, runProtected auth s t handler
          = (Except.error ⟨401, "Token has been revoked"⟩, s))
    ∧ (t ∉ s.revoked → jwt_required auth s.revoked t = auth.decode_token t)
    ∧ (∀ u, t ∉ s.revoked → auth.decode_token t = Except.ok u →
        ∀ handler, runProtected auth s t handler = handler u)
    ∧ (∀ e, t ∉ s.revoked → auth.decode_token t = Except.error e →
        e.status = 401
        ∧ ∀ handler, runProtected auth s t handler = (Except.error e, s)) := by
  refine ⟨?_, ?_, ?_, ?_⟩
  · intro ht
    exact ⟨by simp [jwt_required, ht],
      fun handler => by simp [runProtected, jwt_required, ht]⟩
  · intro ht
    simp [jwt_required, ht]
  · intro u ht hu handler
    simp [runProtected, jwt_required, ht, hu]
  · intro e ht he
    exact ⟨hdec t e he,
      fun handler => by simp [runProtected, jwt_required, ht, he]⟩

/-- Witness for C1: the concrete auth instance satisfies the 401 decode
contract, and with the token "bad" revoked the gate rejects it with 401
"Token has been revoked". -/
theorem C1_authorization_gate_witness :
    DecodeUnauthorized toyAuth
    ∧ jwt_required toyAuth
        (ServiceState.mk ["bad"] [] [] [] []).revoked "bad"
        = Except.error ⟨401, "Token has been revoked"⟩ :=
  ⟨toyAuth_decode_unauthorized,
   ((C1_authorization_gate toyAuth ⟨["bad"], [], [], [], []⟩ "bad"
      toyAuth_decode_unauthorized).1 (by decide)).1⟩

/-- C2: for each protected mutation handler (update film title, update
address, delete customer, delete film), a zero affected-row count yields a
404 with the resource-specific message and no commit, so the table is
returned unchanged; a positive affected-row count commits the executed
statement's table and returns the success message. -/
theorem C2_mutation_rowcount (films : List FilmRow)
    (customers : List CustomerRow) (addresses : List AddressRow)
    (film_id customer_id film_id2 : Int) (title : String) (d : UpdateAddress) :
    ((sqlUpdateFilmTitle film_id title films).1 = 0 →
      update_film_title films film_id title
        = (Except.error ⟨404, "Film not found"⟩, films))
    ∧ ((sqlUpdateFilmTitle film_id title films).1 ≠ 0 →
      update_film_title films film_id title
        = (Except.ok "Film title updated",
           (sqlUpdateFilmTitle film_id title films).2))
    ∧ ((sqlUpdateAddress d addresses).1 = 0 →
      update_customer_address addresses d
        = (Except.error ⟨404, "Address not found"⟩, addresses))
    ∧ ((sqlUpdateAddress d addresses).1 ≠ 0 →
      update_customer_address addresses d
        = (Except.ok "Address updated", (sqlUpdateAddress d addresses).2))
    ∧ ((sqlDeleteCustomer customer_id customers).1 = 0 →
      delete_customer customers customer_id
        = (Except.error ⟨404, "Customer not found"⟩, customers))
    ∧ ((sqlDeleteCustomer customer_id customers).1 ≠ 0 →
      delete_customer customers customer_id
        = (Except.ok "Customer deleted",
           (sqlDeleteCustomer customer_id customers).2))
    ∧ ((sqlDeleteFilm film_id2 films).1 = 0 →
      delete_film films film_id2
        = (Except.error ⟨404, "Film not found"⟩, films))
    ∧ ((sqlDeleteFilm film_id2 films).1 ≠ 0 →
      delete_film films film_id2
        = (Except.ok "Film deleted", (sqlDeleteFilm film_id2 films).2)) := by
  refine ⟨fun h => ?_, fun h => ?_, fun h => ?_, fun h => ?_, fun h => ?_,
    fun h => ?_, fun h => ?_, fun h => ?_⟩
  all_goals
    simp [update_film_title, update_customer_address, delete_customer,
      delete_film, Conn.openDb, Conn.execute, Conn.commit, Conn.close, h]

/-- Witness for C2: on the sample film table, updating film id 99 matches no
row and returns 404 leaving the table unchanged, while updating film id 1
commits the retitled table. -/
theorem C2_mutation_rowcount_witness :
    ((sqlUpdateFilmTitle 99 "X" [filmA, filmB]).1 = 0
      ∧ update_film_title [filmA, filmB] 99 "X"
          = (Except.error ⟨404, "Film not found"⟩, [filmA, filmB]))
    ∧ ((sqlUpdateFilmTitle 1 "X" [filmA, filmB]).1 ≠ 0
      ∧ update_film_title [filmA, filmB] 1 "X"
          = (Except.ok "Film title updated",
             (sqlUpdateFilmTitle 1 "X" [filmA, filmB]).2)) :=
  ⟨⟨by decide,
    (C2_mutation_rowcount [filmA, filmB] [] [] 99 0 0 "X" ⟨0, "", ""⟩).1
      (by decide)⟩,
   ⟨by decide,
    (C2_mutation_rowcount [filmA, filmB] [] [] 1 0 0 "X" ⟨0, "", ""⟩).2.1
      (by decide)⟩⟩

/-- C3: the revoked-token set only grows — revocation is the sole mutating
operation and it inserts the presented string, every other request leaves the
set unchanged, and after any request sequence the set is a superset of the
set before it. -/
theorem C3_revoked_only_grows (auth : AuthHandler) (s : ServiceState)
    (reqs : List Request) :
    (∀ t, t ∈ s.revoked → t ∈ (runRequests auth s reqs).revoked)
    ∧ (∀ tk, (handle auth s (Request.revokeReq tk)).2.revoked
        = s.revoked.insert tk)
    ∧ (∀ r, (∀ tk, r ≠ Request.revokeReq tk) →
        (handle auth s r).2.revoked = s.revoked) := by
  refine ⟨fun t ht => runRequests_revoked_mono auth reqs s t ht,
    fun tk => by simp [handle, revoke_token], ?_⟩
  intro r hr
  cases r
  case revokeReq tk => exact absurd rfl (hr tk)
  all_goals
    first
      | rfl
      | (simp only [handle, runProtected]; split <;> rfl)

/-- Witness for C3: a token revoked in the sample state is still revoked
after a later film-listing request and a second revocation. -/
theorem C3_revoked_only_grows_witness :
    "t0" ∈ (⟨["t0"], [], [], [], []⟩ : ServiceState).revoked
    ∧ "t0" ∈ (runRequests toyAuth ⟨["t0"], [], [], [], []⟩
        [Request.filmsReq, Request.revokeReq "t1"]).revoked :=
  ⟨by decide,
   (C3_revoked_only_grows toyAuth ⟨["t0"], [], [], [], []⟩
      [Request.filmsReq, Request.revokeReq "t1"]).1 "t0" (by decide)⟩

/-- C4: refreshing a non-revoked, decodable token returns a token newly
encoded for the same username, the service state (and in particular the
revocation set) is unchanged, and the old token still passes the
authorization gate afterwards. -/
theorem C4_refresh_frame (auth : AuthHandler) (s : ServiceState)
    (t u : String) (h1 : t ∉ s.revoked)
    (h2 : auth.decode_token t = Except.ok u) :
    refresh_token auth s.revoked t = Except.ok (auth.encode_token u)
    ∧ handle auth s (Request.refreshReq t)
        = (Except.ok (Body.token (auth.encode_token u)), s)
    ∧ (handle auth s (Request.refreshReq t)).2.revoked = s.revoked
    ∧ jwt_required auth (handle auth s (Request.refreshReq t)).2.revoked t
        = Except.ok u := by
  have hr : refresh_token auth s.revoked t
      = Except.ok (auth.encode_token u) := by
    simp [refresh_token, h1, h2]
  refine ⟨hr, by simp [handle, hr, Except.map], by simp [handle], ?_⟩
  simp [handle, jwt_required, h1, h2]

/-- Witness for C4: in the sample state the token "tok.alice" is not revoked
and decodes to alice, and refreshing it returns the re-encoded token for
alice. -/
theorem C4_refresh_frame_witness :
    ("tok.alice" ∉ sampleState.revoked
      ∧ toyAuth.decode_token "tok.alice" = Except.ok "alice")
    ∧ refresh_token toyAuth sampleState.revoked "tok.alice"
        = Except.ok (toyAuth.encode_token "alice") :=
  ⟨⟨by decide, by simp [toyAuth]⟩,
   (C4_refresh_frame toyAuth sampleState "tok.alice" "alice" (by decide)
      (by simp [toyAuth])).1⟩

/-- C5: GET /films returns at most 10 films, each the four-field projection
of a row of the backing film table, and the order of the result is inherited
from the arbitrary order in which the database returns rows (two table states
holding the same rows in different orders produce different results), so no
ordering is guaranteed. -/
theorem C5_films_capped (films : List FilmRow) :
    (get_all_films films).length ≤ 10
    ∧ (∀ f ∈ get_all_films films, ∃ r ∈ films, f = filmProj r)
    ∧ (∃ t1 t2 : List FilmRow, t1.Perm t2
        ∧ get_all_films t1 ≠ get_all_films t2) := by
  refine ⟨?_, ?_, ?_⟩
  · simp only [get_all_films, List.length_map, List.length_take]
    exact min_le_left _ _
  · intro f hf
    rcases List.mem_map.mp hf with ⟨r, hr, rfl⟩
    exact ⟨r, List.take_subset _ _ hr, rfl⟩
  · exact ⟨[filmA, filmB], [filmB, filmA], List.Perm.swap filmB filmA [],
      by decide⟩

/-- C6: the category listing fails with 404 "No films found in this category"
exactly when the join of films to film_category has no row for the given
category id, and otherwise returns every joined row (no limit) in the
four-field film projection; the join is empty exactly when no film row and
assignment pair match the category. -/
theorem C6_category_lookup (films : List FilmRow) (fc : List (Int × Int))
    (cid : Int) :
    (get_films_by_category films fc cid
        = Except.error ⟨404, "No films found in this category"⟩
      ↔ sqlFilmsByCategory films fc cid = [])
    ∧ (sqlFilmsByCategory films fc cid ≠ [] →
        get_films_by_category films fc cid
          = Except.ok (sqlFilmsByCategory films fc cid))
    ∧ (sqlFilmsByCategory films fc cid = [] ↔
        ∀ f ∈ films, ∀ p ∈ fc, ¬(p.1 = f.film_id ∧ p.2 = cid)) := by
  refine ⟨?_, ?_, ?_⟩
  · by_cases h : sqlFilmsByCategory films fc cid = [] <;>
      simp [get_films_by_category, h]
  · intro h
    simp [get_films_by_category, h]
  · simp [sqlFilmsByCategory, List.filter_eq_nil_iff]

/-- C7 counterexample: a login body whose username and password are both the
empty string passes AuthDetails validation (the declared field type is plain
str with no non-emptiness constraint), so validation does not fail before the
handler executes. -/
theorem C7_counterexample :
    Schemas.validateAuthDetails (some "") (some "")
      = Except.ok ⟨"", ""⟩ := rfl

/-- C7 amended: the login request schema requires username and password to be
present text fields — a request missing either field fails validation naming
the missing field — but the empty string satisfies the declared type and is
accepted by validation. -/
theorem C7_required_not_nonempty (u p : String) :
    Schemas.validateAuthDetails (some u) (some p) = Except.ok ⟨u, p⟩
    ∧ Schemas.validateAuthDetails none (some p) = Except.error ["username"]
    ∧ Schemas.validateAuthDetails (some u) none = Except.error ["password"]
    ∧ Schemas.validateAuthDetails none none
        = Except.error ["username", "password"] :=
  ⟨rfl, rfl, rfl, rfl⟩

/-- C8: the validated customer-creation schema accepts a payload exactly when
first_name and last_name are each 1 to 45 characters, the email satisfies the
syntactic email validator, and the password is at least 8 characters; in
particular a 46-character first name, an email the validator rejects, or a
7-character password each cause rejection. -/
theorem C8_customer_create_validation (isEmail : String → Bool)
    (c : Schemas.CustomerCreate) :
    (Schemas.validateCustomerCreate isEmail c = true ↔
      (1 ≤ c.first_name.length ∧ c.first_name.length ≤ 45
        ∧ 1 ≤ c.last_name.length ∧ c.last_name.length ≤ 45
        ∧ isEmail c.email = true ∧ 8 ≤ c.password.length))
    ∧ (c.first_name.length = 46 →
        Schemas.validateCustomerCreate isEmail c = false)
    ∧ (isEmail c.email = false →
        Schemas.validateCustomerCreate isEmail c = false)
    ∧ (c.password.length = 7 →
        Schemas.validateCustomerCreate isEmail c = false) := by
  refine ⟨?_, fun h => ?_, fun h => ?_, fun h => ?_⟩
  · simp [Schemas.validateCustomerCreate, and_assoc]
  · simp [Schemas.validateCustomerCreate, h]
  · simp [Schemas.validateCustomerCreate, h]
  · simp [Schemas.validateCustomerCreate, h]

/-- Witness for C8: with a validator accepting exactly one address, a
conforming payload passes and a payload with a 7-character password is
rejected. -/
theorem C8_customer_create_validation_witness :
    Schemas.validateCustomerCreate (fun s => s == "a@b.com")
        ⟨"MARY", "SMITH", "a@b.com", "longenough"⟩ = true
    ∧ ((⟨"MARY", "SMITH", "a@b.com", "seven07"⟩ :
          Schemas.CustomerCreate).password.length = 7
      ∧ Schemas.validateCustomerCreate (fun s => s == "a@b.com")
          ⟨"MARY", "SMITH", "a@b.com", "seven07"⟩ = false) :=
  ⟨(C8_customer_create_validation (fun s => s == "a@b.com")
      ⟨"MARY", "SMITH", "a@b.com", "longenough"⟩).1.mpr (by decide),
   ⟨by decide,
    (C8_customer_create_validation (fun s => s == "a@b.com")
      ⟨"MARY", "SMITH", "a@b.com", "seven07"⟩).2.2.2 (by decide)⟩⟩

/-- C9 counterexample: on its success path create_customer never emits a
connection-close event (src/main.py closes only the cursor, in the finally
block), and on an execution-failure path get_all_films does not even close
the cursor (its cursor.close() is a plain statement, not in a cleanup
block). -/
theorem C9_counterexample :
    DbEvent.closeConn ∉ create_customer_events false
    ∧ DbEvent.closeCursor ∉ get_all_films_events true := by decide

/-- C9 amended: every modelled handler opens a connection and a cursor; the
handlers with a cleanup block (the protected mutation handlers, here
create_customer, update_film_title and delete_customer) close the cursor on
every exit path, while the plain read handlers (get_all_films,
get_films_by_category) close the cursor exactly when statement execution does
not raise; no handler ever explicitly closes the connection, whose release is
left to teardown. -/
theorem C9_cursor_only_discipline (execRaises rowcountZero : Bool) :
    (DbEvent.closeConn ∉ get_all_films_events execRaises
      ∧ DbEvent.closeConn ∉ get_films_by_category_events execRaises
      ∧ DbEvent.closeConn ∉ create_customer_events execRaises
      ∧ DbEvent.closeConn ∉ update_film_title_events execRaises rowcountZero
      ∧ DbEvent.closeConn ∉ delete_customer_events execRaises rowcountZero)
    ∧ (DbEvent.closeCursor ∈ create_customer_events execRaises
      ∧ DbEvent.closeCursor ∈ update_film_title_events execRaises rowcountZero
      ∧ DbEvent.closeCursor ∈ delete_customer_events execRaises rowcountZero)
    ∧ (DbEvent.closeCursor ∈ get_all_films_events execRaises
        ↔ execRaises = false)
    ∧ (DbEvent.closeCursor ∈ get_films_by_category_events execRaises
        ↔ execRaises = false) := by
  cases execRaises <;> cases rowcountZero <;> decide

/-- C10: the revoke operation adds the presented bearer string — whatever it
is, with no decoding or validation — to the revocation set and returns the
success message "Token has been revoked"; immediately afterwards and after
any further request sequence, the authorization gate rejects that exact
string with 401 "Token has been revoked". -/
theorem C10_revoke_unconditional (auth : AuthHandler) (s : ServiceState)
    (t : String) (reqs : List Request) :
    handle auth s (Request.revokeReq t)
      = (Except.ok (Body.msg "Token has been revoked"),
         ⟨s.revoked.insert t, s.films, s.film_category, s.customers,
          s.addresses⟩)
    ∧ jwt_required auth (handle auth s (Request.revokeReq t)).2.revoked t
        = Except.error ⟨401, "Token has been revoked"⟩
    ∧ jwt_required auth
        (runRequests auth (handle auth s (Request.revokeReq t)).2 reqs).revoked
        t = Except.error ⟨401, "Token has been revoked"⟩ := by
  have hmem : t ∈ (handle auth s (Request.revokeReq t)).2.revoked := by
    simp [handle, revoke_token, List.mem_insert_self]
  refine ⟨by simp [handle, revoke_token], ?_, ?_⟩
  · simp [jwt_required, hmem]
  · have hm := runRequests_revoked_mono auth reqs _ t hmem
    simp [jwt_required, hm]

end Sakila
